import Mathlib

/-!
# Verification of the pymax backend core (`backend/app.py`)

Shallow embedding of the transaction ledger, aggregation engine, account
store, token service and account lifecycle of `backend/app.py`, together
with proofs of the specified properties.

Conventions of the embedding:
* SQLite rows become Lean structures; the two tables become lists kept in
  insertion (rowid) order, with the AUTOINCREMENT counters made explicit.
* `REAL` amounts are modelled as exact rationals (`ℚ`).
* Python `str.strip()` and `str.lower()` are modelled by the explicit
  `pyStrip` and `pyLower` below; SQLite `BETWEEN` on `TEXT` is the
  lexicographic `≤` on `String`.
* Fallible request handlers return an explicit result type; an uncaught
  Python exception (Flask's 500 path) is a distinguished `serverError`
  constructor.
-/

/-- A row of the `transactions` table
(`id, date, type, category, amount, client, note`). -/
structure Transaction where
  id : Nat
  date : String
  typ : String
  category : String
  amount : ℚ
  client : String
  note : String
deriving Repr, DecidableEq

/-- A row of the `users` table
(`id, name, email, password_hash, confirmed, created_at`). -/
structure User where
  id : Nat
  name : String
  email : String
  passwordHash : String
  confirmed : Bool
  createdAt : String
deriving Repr, DecidableEq

/-- The durable store: both tables plus the AUTOINCREMENT counters. -/
structure DB where
  txs : List Transaction
  users : List User
  nextTxId : Nat
  nextUserId : Nat
deriving Repr, DecidableEq

/-- Modelled from the spec: the external credential-hashing capability
(`werkzeug.security.generate_password_hash`), an opaque
`hash(plaintext) -> digest` whose digest verifies exactly against the
hashed plaintext. -/
def generate_password_hash (p : String) : String :=
  "pbkdf2:" ++ p

/-- Modelled from the spec: `werkzeug.security.check_password_hash`,
`verify(plaintext, digest) -> bool`, true exactly when `digest` was
produced from `plaintext`. -/
def check_password_hash (h p : String) : Bool :=
  h == generate_password_hash p

/-- The claim payload carried by a signed token: confirmation tokens carry
`{email}`, session tokens carry `{uid, email}`. -/
structure Claims where
  email : String
  uid : Option Nat := none
deriving Repr, DecidableEq

/-- Modelled from the spec: the HMAC-style authentication tag computed by
`itsdangerous.URLSafeTimedSerializer` over the claim payload and the
signing timestamp, keyed by the shared secret.  Only tag (mis)match
matters to the verifier, so any secret-keyed recomputable tag suffices. -/
def mac (secret : String) (c : Claims) (issuedAt : Nat) : String :=
  secret ++ "#" ++ c.email ++ "#" ++
    (match c.uid with | none => "-" | some n => toString n) ++ "#" ++ toString issuedAt

/-- A signed token: claims, issuance timestamp (seconds), authentication tag. -/
structure Token where
  claims : Claims
  issuedAt : Nat
  tag : String
deriving Repr, DecidableEq

/-- Modelled from the spec: `serializer.dumps(claims)` — signs the claims
together with the current timestamp. -/
def sign (secret : String) (c : Claims) (now : Nat) : Token :=
  ⟨c, now, mac secret c now⟩

/-- Outcome of token verification: `BadSignature`, `SignatureExpired`, or
the recovered claims. -/
inductive VerifyResult where
  | invalid
  | expired
  | ok (c : Claims)
deriving Repr, DecidableEq

/-- Modelled from the spec: `serializer.loads(token, max_age)` — fails
`invalid` when the tag does not recompute, `expired` when the token is
strictly older than `maxAge` seconds, and otherwise returns the claims. -/
def verify (secret : String) (tok : Token) (maxAge now : Nat) : VerifyResult :=
  if tok.tag ≠ mac secret tok.claims tok.issuedAt then .invalid
  else if now - tok.issuedAt > maxAge then .expired
  else .ok tok.claims

/-- The `max_age=172800  # 48 horas` constant used by `/api/confirm`. -/
def CONFIRM_MAX_AGE : Nat := 172800

/-- Python `str.strip()`: drop leading and trailing whitespace. -/
def pyStrip (s : String) : String :=
  ⟨((s.data.dropWhile Char.isWhitespace).reverse.dropWhile Char.isWhitespace).reverse⟩

/-- Python `str.lower()`: lowercase every character. -/
def pyLower (s : String) : String :=
  ⟨s.data.map Char.toLower⟩

/-- Result of `POST /api/register`. -/
inductive RegisterResult where
  | validationError                 -- 400 'name, email y password son requeridos'
  | conflict                        -- 409 'El email ya está registrado'
  | created (token : Token)         -- 201, confirmation token returned
deriving Repr, DecidableEq

/-- Endpoint `register` (`app.py` lines 92–126): strips the three fields, lowercases
the email, rejects empty fields, rejects an already-registered email, and
otherwise inserts an unconfirmed user and mints a confirmation token. -/
def register (secret : String) (db : DB) (name email password : String)
    (now : Nat) (nowStr : String) : DB × RegisterResult :=
  let name := pyStrip name
  let email := pyLower (pyStrip email)
  let password := pyStrip password
  if name = "" ∨ email = "" ∨ password = "" then
    (db, .validationError)
  else if db.users.any (fun u => u.email == email) then
    (db, .conflict)
  else
    let u : User := ⟨db.nextUserId, name, email, generate_password_hash password,
                     false, nowStr⟩
    ({ db with users := db.users ++ [u], nextUserId := db.nextUserId + 1 },
     .created (sign secret ⟨email, none⟩ now))

/-- Result of `GET /api/confirm`. -/
inductive ConfirmResult where
  | expired                         -- 400 'Token expirado'
  | invalid                         -- 400 'Token inválido'
  | notFound                        -- 404 'Usuario no encontrado'
  | alreadyConfirmed                -- 200 'Cuenta ya estaba confirmada'
  | newlyConfirmed                  -- 200 'Cuenta confirmada correctamente'
deriving Repr, DecidableEq

/-- The statement `UPDATE users SET confirmed=1 WHERE id=?`. -/
def markConfirmed (users : List User) (uid : Nat) : List User :=
  users.map (fun u => if u.id = uid then { u with confirmed := true } else u)

/-- Endpoint `confirm` (`app.py` lines 130–154): verifies the token with a 48h
max-age, lowercases the decoded email, looks the user up, and either
reports `alreadyConfirmed` or flips the flag. -/
def confirm (secret : String) (db : DB) (tok : Token) (now : Nat) :
    DB × ConfirmResult :=
  match verify secret tok CONFIRM_MAX_AGE now with
  | .invalid => (db, .invalid)
  | .expired => (db, .expired)
  | .ok c =>
    let email := pyLower c.email
    match db.users.find? (fun u => u.email == email) with
    | none => (db, .notFound)
    | some u =>
      if u.confirmed then (db, .alreadyConfirmed)
      else ({ db with users := markConfirmed db.users u.id }, .newlyConfirmed)

/-- Result of `POST /api/login`: an error response (status, message) or
the success payload (`name`, normalized `email`, session token). -/
inductive LoginResult where
  | err (status : Nat) (msg : String)
  | ok (name email : String) (session : Token)
deriving Repr, DecidableEq

/-- Endpoint `login` (`app.py` lines 158–180): strips and lowercases the email,
strips the password, rejects empty fields, and fails with the single
`Credenciales inválidas` message both when no user matches and when the
digest does not verify; an unconfirmed user gets the distinct 403. -/
def login (secret : String) (db : DB) (email password : String) (now : Nat) :
    LoginResult :=
  let email := pyLower (pyStrip email)
  let password := pyStrip password
  if email = "" ∨ password = "" then
    .err 400 "email y password son requeridos"
  else
    match db.users.find? (fun u => u.email == email) with
    | none => .err 401 "Credenciales inválidas"
    | some u =>
      if ¬ check_password_hash u.passwordHash password then
        .err 401 "Credenciales inválidas"
      else if ¬ u.confirmed then
        .err 403 "Correo no confirmado"
      else
        .ok u.name email (sign secret ⟨email, some u.id⟩ now)

/-- The JSON `amount` field as seen by `float(data.get('amount', 0))`:
absent (the `0` default applies), present but unparsable (`float` raises
`ValueError`), or parsed to a number. -/
inductive AmountField where
  | absent
  | unparsable
  | val (q : ℚ)
deriving Repr, DecidableEq

/-- Coercion `float(data.get('amount', 0))`: `none` models the uncaught
`ValueError`. -/
def pyFloatAmount : AmountField → Option ℚ
  | .absent => some 0
  | .unparsable => none
  | .val q => some q

/-- The JSON body of `POST /api/transaction`; `none` models an absent key. -/
structure TxRequest where
  date : Option String
  typ : Option String
  category : Option String
  amount : AmountField
  client : Option String
  note : Option String
deriving Repr, DecidableEq

/-- Result of `POST /api/transaction`. -/
inductive AddTxResult where
  | serverError                     -- uncaught exception (Flask 500)
  | validationError                 -- 400 'date y type requeridos'
  | ok                              -- 201
deriving Repr, DecidableEq

/-- Endpoint `add_transaction` (`app.py` lines 188–202): coerces the amount first
(`float` may raise, before any validation), then requires `date` and
`type` truthy, then inserts the row. -/
def add_transaction (db : DB) (req : TxRequest) : DB × AddTxResult :=
  match pyFloatAmount req.amount with
  | none => (db, .serverError)
  | some amt =>
    if req.date.getD "" = "" ∨ req.typ.getD "" = "" then
      (db, .validationError)
    else
      let t : Transaction :=
        ⟨db.nextTxId, req.date.getD "", req.typ.getD "", req.category.getD "General",
         amt, req.client.getD "", req.note.getD ""⟩
      ({ db with txs := db.txs ++ [t], nextTxId := db.nextTxId + 1 }, .ok)

/-- Order `ORDER BY date DESC, id DESC`: `a` sorts no later than `b`. -/
def dateIdDesc (a b : Transaction) : Bool :=
  decide (b.date < a.date ∨ (b.date = a.date ∧ b.id ≤ a.id))

/-- Order `ORDER BY id DESC`: `a` sorts no later than `b`. -/
def idDesc (a b : Transaction) : Bool :=
  decide (b.id ≤ a.id)

/-- Endpoint `get_transactions` (`app.py` lines 205–214): with a truthy `date`
argument, `WHERE date=? ORDER BY id DESC`; otherwise
`ORDER BY date DESC, id DESC LIMIT 1000`. -/
def get_transactions (txs : List Transaction) (dateArg : Option String) :
    List Transaction :=
  if dateArg.getD "" ≠ "" then
    (txs.filter (fun t => t.date == dateArg.getD "")).mergeSort idDesc
  else
    (txs.mergeSort dateIdDesc).take 1000

/-- Query `SELECT type, SUM(amount) … GROUP BY type`: one `(type, total)` row per
distinct type among `rows`. -/
def groupSums (rows : List Transaction) : List (String × ℚ) :=
  ((rows.map (fun t => t.typ)).dedup).map
    (fun ty => (ty, ((rows.filter (fun t => t.typ == ty)).map (fun t => t.amount)).sum))

/-- Lookup `res.get(k, 0)` on the dict built from the grouped rows. -/
def resGet (res : List (String × ℚ)) (k : String) : ℚ :=
  match res.find? (fun p => p.1 == k) with
  | some p => p.2
  | none => 0

/-- Filter `WHERE date=?`. -/
def dateFilter (txs : List Transaction) (d : String) : List Transaction :=
  txs.filter (fun t => t.date == d)

/-- Filter `WHERE date BETWEEN ? AND ?` — inclusive lexicographic comparison. -/
def rangeFilter (txs : List Transaction) (s e : String) : List Transaction :=
  txs.filter (fun t => decide (s ≤ t.date ∧ t.date ≤ e))

/-- The figures of `GET /api/summary`. -/
structure Summary where
  ventas : ℚ
  compras : ℚ
  gastos : ℚ
  utilidad : ℚ
deriving Repr, DecidableEq

/-- Endpoint `summary` (`app.py` lines 217–225): per-type sums over the rows of one
date, `utilidad = ventas - (compras + gastos)`. -/
def summary (txs : List Transaction) (d : String) : Summary :=
  let res := groupSums (dateFilter txs d)
  let ventas := resGet res "venta"
  let compras := resGet res "compra"
  let gastos := resGet res "gasto"
  ⟨ventas, compras, gastos, ventas - (compras + gastos)⟩

/-- The figures of `GET /api/estado`. -/
structure Estado where
  ventas : ℚ
  compras : ℚ
  gastos : ℚ
  utilidad_bruta : ℚ
  utilidad_neta : ℚ
  impuesto_estimado : ℚ
deriving Repr, DecidableEq

/-- Endpoint `estado` (`app.py` lines 228–243): per-type sums over the rows in the
inclusive date range, `utilidad_bruta = ventas - compras`,
`utilidad_neta = utilidad_bruta - gastos`, 25% tax on positive net. -/
def estado (txs : List Transaction) (start stop : String) : Estado :=
  let res := groupSums (rangeFilter txs start stop)
  let ventas := resGet res "venta"
  let compras := resGet res "compra"
  let gastos := resGet res "gasto"
  let ub := ventas - compras
  let un := ub - gastos
  ⟨ventas, compras, gastos, ub, un, if un > 0 then un * (0.25 : ℚ) else 0⟩

/-- Spec-side description of a per-kind figure: the sum of `amount` over
the rows of the given kind (independent formulation, for refinement). -/
def kindSum (rows : List Transaction) (k : String) : ℚ :=
  ((rows.filter (fun t => t.typ = k)).map (fun t => t.amount)).sum

/-- One logical operation of the core, for whole-system invariants. -/
inductive Op where
  | registerOp (name email password : String) (now : Nat) (nowStr : String)
  | confirmOp (tok : Token) (now : Nat)
  | loginOp (email password : String) (now : Nat)
  | addTxOp (req : TxRequest)
  | getTxOp (d : Option String)
  | summaryOp (d : String)
  | estadoOp (s e : String)
deriving Repr

/-- The store after one operation (read-only operations leave it fixed;
`login` never writes). -/
def applyOp (secret : String) (db : DB) : Op → DB
  | .registerOp n e p now ns => (register secret db n e p now ns).1
  | .confirmOp tok now => (confirm secret db tok now).1
  | .loginOp _ _ _ => db
  | .addTxOp req => (add_transaction db req).1
  | .getTxOp _ => db
  | .summaryOp _ => db
  | .estadoOp _ _ => db

/-! ## Aggregation: `GROUP BY type` + `dict.get` equals a per-kind sum -/

/-- Running `find?` over the association list built from a key list locates the
entry of any listed key. -/
theorem find?_assoc_of_mem (f : String → ℚ) (l : List String) (k : String)
    (h : k ∈ l) :
    (l.map (fun ty => (ty, f ty))).find? (fun p => p.1 == k) = some (k, f k) := by
  induction l with
  | nil => cases h
  | cons a as ih =>
    simp only [List.map_cons]
    by_cases hak : a = k
    · subst hak
      exact List.find?_cons_of_pos _ (by simp)
    · rw [List.find?_cons_of_neg _ (by simp [hak])]
      rcases List.mem_cons.mp h with h1 | h1
      · exact absurd h1.symm hak
      · exact ih h1

/-- Running `find?` over the association list misses any unlisted key. -/
theorem find?_assoc_of_not_mem (f : String → ℚ) (l : List String) (k : String)
    (h : k ∉ l) :
    (l.map (fun ty => (ty, f ty))).find? (fun p => p.1 == k) = none := by
  induction l with
  | nil => rfl
  | cons a as ih =>
    simp only [List.map_cons]
    rw [List.find?_cons_of_neg _ (by simp; rintro rfl; exact h (List.mem_cons_self a as))]
    exact ih (fun hk => h (List.mem_cons_of_mem _ hk))

/-- Lookup `res.get(k, 0)` after `SELECT type, SUM(amount) … GROUP BY type` is the
sum of `amount` over the rows of kind `k`. -/
theorem resGet_groupSums (rows : List Transaction) (k : String) :
    resGet (groupSums rows) k = kindSum rows k := by
  unfold resGet groupSums kindSum
  have hfun : (fun t : Transaction => t.typ == k) = (fun t => decide (t.typ = k)) := by
    funext t
    by_cases ht : t.typ = k <;> simp [ht]
  by_cases h : k ∈ rows.map (fun t => t.typ)
  · rw [find?_assoc_of_mem _ _ _ (List.mem_dedup.mpr h)]
    simp [hfun]
  · rw [find?_assoc_of_not_mem _ _ _ (fun hk => h (List.mem_dedup.mp hk))]
    have hnil : rows.filter (fun t => decide (t.typ = k)) = [] := by
      rw [List.filter_eq_nil_iff]
      intro t ht
      simp only [decide_eq_true_eq]
      exact fun he => h (he ▸ List.mem_map_of_mem (fun t => t.typ) ht)
    simp [hnil]

/-- C1: over the inclusive date range, `estado` returns the per-kind sums
of `amount`, `utilidad_bruta = ventas - compras`,
`utilidad_neta = utilidad_bruta - gastos`, a 25% estimated tax exactly on
positive net profit, and all-zero figures on an empty range. -/
theorem estado_income_statement_spec (txs : List Transaction) (start stop : String) :
    (estado txs start stop).ventas = kindSum (rangeFilter txs start stop) "venta" ∧
    (estado txs start stop).compras = kindSum (rangeFilter txs start stop) "compra" ∧
    (estado txs start stop).gastos = kindSum (rangeFilter txs start stop) "gasto" ∧
    (estado txs start stop).utilidad_bruta =
      (estado txs start stop).ventas - (estado txs start stop).compras ∧
    (estado txs start stop).utilidad_neta =
      (estado txs start stop).utilidad_bruta - (estado txs start stop).gastos ∧
    (estado txs start stop).impuesto_estimado =
      (if (estado txs start stop).utilidad_neta > 0
       then (estado txs start stop).utilidad_neta * (0.25 : ℚ) else 0) ∧
    (rangeFilter txs start stop = [] → estado txs start stop = ⟨0, 0, 0, 0, 0, 0⟩) := by
  refine ⟨?_, ?_, ?_, ?_, ?_, ?_, ?_⟩
  · simp [estado, resGet_groupSums]
  · simp [estado, resGet_groupSums]
  · simp [estado, resGet_groupSums]
  · simp [estado]
  · simp [estado]
  · simp [estado]
  · intro h
    simp [estado, h, resGet_groupSums, kindSum]

/-- C1 witness: an empty range yields the all-zero income statement. -/
theorem estado_income_statement_spec_witness :
    estado ([] : List Transaction) "2024-01-01" "2024-01-31" = ⟨0, 0, 0, 0, 0, 0⟩ :=
  (estado_income_statement_spec [] "2024-01-01" "2024-01-31").2.2.2.2.2.2 rfl

/-- C2: `summary` returns the per-kind sums of `amount` over the rows of
the given date, `utilidad = ventas - (compras + gastos)`, and all-zero
figures when no row matches. -/
theorem summary_daily_spec (txs : List Transaction) (d : String) :
    (summary txs d).ventas = kindSum (dateFilter txs d) "venta" ∧
    (summary txs d).compras = kindSum (dateFilter txs d) "compra" ∧
    (summary txs d).gastos = kindSum (dateFilter txs d) "gasto" ∧
    (summary txs d).utilidad =
      (summary txs d).ventas - ((summary txs d).compras + (summary txs d).gastos) ∧
    (dateFilter txs d = [] → summary txs d = ⟨0, 0, 0, 0⟩) := by
  refine ⟨?_, ?_, ?_, ?_, ?_⟩
  · simp [summary, resGet_groupSums]
  · simp [summary, resGet_groupSums]
  · simp [summary, resGet_groupSums]
  · simp [summary]
  · intro h
    simp [summary, h, resGet_groupSums, kindSum]

/-- C2 witness: a date with no rows yields the all-zero summary. -/
theorem summary_daily_spec_witness :
    summary ([] : List Transaction) "2024-01-01" = ⟨0, 0, 0, 0⟩ :=
  (summary_daily_spec [] "2024-01-01").2.2.2.2 rfl

/-! ## Ledger queries: ordering and the 1000-row cap -/

theorem idDesc_trans :
    ∀ a b c : Transaction, idDesc a b = true → idDesc b c = true → idDesc a c = true := by
  intro a b c
  simp only [idDesc, decide_eq_true_eq]
  omega

theorem idDesc_total : ∀ a b : Transaction, (idDesc a b || idDesc b a) = true := by
  intro a b
  simp only [idDesc, Bool.or_eq_true, decide_eq_true_eq]
  omega

theorem dateIdDesc_trans :
    ∀ a b c : Transaction,
      dateIdDesc a b = true → dateIdDesc b c = true → dateIdDesc a c = true := by
  intro a b c
  simp only [dateIdDesc, decide_eq_true_eq]
  rintro (h1 | ⟨h1, h1'⟩) (h2 | ⟨h2, h2'⟩)
  · exact Or.inl (lt_trans h2 h1)
  · exact Or.inl (lt_of_le_of_lt (le_of_eq h2) h1)
  · exact Or.inl (lt_of_lt_of_le h2 (le_of_eq h1))
  · exact Or.inr ⟨h2.trans h1, le_trans h2' h1'⟩

theorem dateIdDesc_total :
    ∀ a b : Transaction, (dateIdDesc a b || dateIdDesc b a) = true := by
  intro a b
  simp only [dateIdDesc, Bool.or_eq_true, decide_eq_true_eq]
  rcases lt_trichotomy a.date b.date with h | h | h
  · exact Or.inr (Or.inl h)
  · rcases Nat.le_total b.id a.id with h' | h'
    · exact Or.inl (Or.inr ⟨h.symm, h'⟩)
    · exact Or.inr (Or.inr ⟨h, h'⟩)
  · exact Or.inl (Or.inl h)

/-- C8: with a (truthy) date argument, `get_transactions` returns exactly
the rows of that date ordered by descending id; without one it returns at
most 1000 rows, ordered by date descending then id descending, forming a
prefix of the full so-ordered listing of the store (the most recent rows). -/
theorem get_transactions_spec (txs : List Transaction) (d : String) (hd : d ≠ "") :
    ((get_transactions txs (some d)).Perm (txs.filter (fun t => t.date == d)) ∧
      (get_transactions txs (some d)).Pairwise (fun a b => b.id ≤ a.id)) ∧
    ((get_transactions txs none).length ≤ 1000 ∧
      (get_transactions txs none).Pairwise
        (fun a b => b.date < a.date ∨ (b.date = a.date ∧ b.id ≤ a.id)) ∧
      (get_transactions txs none) <+: txs.mergeSort dateIdDesc ∧
      (txs.mergeSort dateIdDesc).Perm txs ∧
      (txs.mergeSort dateIdDesc).Pairwise
        (fun a b => b.date < a.date ∨ (b.date = a.date ∧ b.id ≤ a.id))) := by
  have hsome : get_transactions txs (some d) =
      (txs.filter (fun t => t.date == d)).mergeSort idDesc := by
    simp [get_transactions, hd]
  have hnone : get_transactions txs none = (txs.mergeSort dateIdDesc).take 1000 := by
    simp [get_transactions]
  have hfull : (txs.mergeSort dateIdDesc).Pairwise
      (fun a b => b.date < a.date ∨ (b.date = a.date ∧ b.id ≤ a.id)) :=
    (List.sorted_mergeSort dateIdDesc_trans dateIdDesc_total txs).imp
      (fun h => by simpa [dateIdDesc] using h)
  refine ⟨⟨?_, ?_⟩, ?_, ?_, ?_, ?_, ?_⟩
  · rw [hsome]
    exact List.mergeSort_perm _ _
  · rw [hsome]
    exact (List.sorted_mergeSort idDesc_trans idDesc_total _).imp
      (fun h => by simpa [idDesc] using h)
  · rw [hnone]
    exact List.length_take_le _ _
  · rw [hnone]
    exact List.Pairwise.sublist (List.take_sublist _ _) hfull
  · rw [hnone]
    exact List.take_prefix _ _
  · exact List.mergeSort_perm _ _
  · exact hfull

/-- C8 witness: the date-filtered query on a one-row store. -/
theorem get_transactions_spec_witness :
    (get_transactions [⟨1, "2024-01-01", "venta", "General", 100, "", ""⟩]
        (some "2024-01-01")).Perm
      ([⟨1, "2024-01-01", "venta", "General", 100, "", ""⟩].filter
        (fun t => t.date == "2024-01-01")) :=
  (get_transactions_spec [⟨1, "2024-01-01", "venta", "General", 100, "", ""⟩]
    "2024-01-01" (by decide)).1.1

/-! ## Token service and account lifecycle -/

/-- C7: a signed token verified strictly after 48h fails `expired`,
verified at or before 48h yields its claims (so never `expired`), and a
token whose tag does not recompute fails `invalid`. -/
theorem token_expiry_and_tamper (secret : String) (c : Claims) (t now : Nat)
    (tok : Token) :
    (now > t + CONFIRM_MAX_AGE →
      verify secret (sign secret c t) CONFIRM_MAX_AGE now = .expired) ∧
    (now ≤ t + CONFIRM_MAX_AGE →
      verify secret (sign secret c t) CONFIRM_MAX_AGE now = .ok c) ∧
    (tok.tag ≠ mac secret tok.claims tok.issuedAt →
      verify secret tok CONFIRM_MAX_AGE now = .invalid) := by
  refine ⟨?_, ?_, ?_⟩
  · intro h
    simp only [CONFIRM_MAX_AGE] at h
    simp [verify, sign, CONFIRM_MAX_AGE]
    omega
  · intro h
    simp only [CONFIRM_MAX_AGE] at h
    simp [verify, sign, CONFIRM_MAX_AGE]
    omega
  · intro h
    simp [verify, h]

/-- C7 witness: expiry at 48h+1s, success at 47h59m, rejection of a
tampered tag, on a concrete token. -/
theorem token_expiry_and_tamper_witness :
    verify "s" (sign "s" ⟨"a@b.com", none⟩ 0) CONFIRM_MAX_AGE 172801 = .expired ∧
    verify "s" (sign "s" ⟨"a@b.com", none⟩ 0) CONFIRM_MAX_AGE 172740 =
      .ok ⟨"a@b.com", none⟩ ∧
    verify "s" ⟨⟨"a@b.com", none⟩, 0, "bad"⟩ CONFIRM_MAX_AGE 0 = .invalid :=
  ⟨(token_expiry_and_tamper "s" ⟨"a@b.com", none⟩ 0 172801
      ⟨⟨"a@b.com", none⟩, 0, "bad"⟩).1 (by decide),
   (token_expiry_and_tamper "s" ⟨"a@b.com", none⟩ 0 172740
      ⟨⟨"a@b.com", none⟩, 0, "bad"⟩).2.1 (by decide),
   (token_expiry_and_tamper "s" ⟨"a@b.com", none⟩ 0 0
      ⟨⟨"a@b.com", none⟩, 0, "bad"⟩).2.2 (by decide)⟩

/-- C4: when no account matches the normalized email, or one matches but
the digest does not verify, `login` fails with the one identical
`invalid_credentials` response — same 401 status, same message. -/
theorem login_invalid_credentials_indistinguishable (secret : String) (db : DB)
    (email password : String) (now : Nat)
    (he : pyLower (pyStrip email) ≠ "") (hp : pyStrip password ≠ "")
    (h : db.users.find? (fun u => u.email == pyLower (pyStrip email)) = none ∨
         ∃ u, db.users.find? (fun u => u.email == pyLower (pyStrip email)) = some u ∧
           check_password_hash u.passwordHash (pyStrip password) = false) :
    login secret db email password now = .err 401 "Credenciales inválidas" := by
  unfold login
  rw [if_neg (by push_neg; exact ⟨he, hp⟩)]
  rcases h with h | ⟨u, hu, hcp⟩
  · rw [h]
  · rw [hu]
    simp [hcp]

/-- C4 witness: a non-existent email and a wrong password on an existing
account produce the very same response. -/
theorem login_invalid_credentials_indistinguishable_witness :
    login "s" ⟨[], [⟨1, "n", "a@b.com", "pbkdf2:pw", true, "t"⟩], 1, 2⟩
        "nobody@b.com" "pw" 0 = .err 401 "Credenciales inválidas" ∧
    login "s" ⟨[], [⟨1, "n", "a@b.com", "pbkdf2:pw", true, "t"⟩], 1, 2⟩
        "a@b.com" "wrong" 0 = .err 401 "Credenciales inválidas" :=
  ⟨login_invalid_credentials_indistinguishable "s" _ "nobody@b.com" "pw" 0
      (by decide) (by decide) (Or.inl (by decide)),
   login_invalid_credentials_indistinguishable "s" _ "a@b.com" "wrong" 0
      (by decide) (by decide)
      (Or.inr ⟨⟨1, "n", "a@b.com", "pbkdf2:pw", true, "t"⟩, by decide, by decide⟩)⟩

/-- C5: registering any email whose strip-and-lowercase normalization
collides with an existing account fails with `conflict` and leaves the
whole store — in particular the existing account — unchanged. -/
theorem register_duplicate_email_conflict (secret : String) (db : DB)
    (name email password : String) (now : Nat) (nowStr : String) (u : User)
    (hn : pyStrip name ≠ "") (hp : pyStrip password ≠ "") (he : pyLower (pyStrip email) ≠ "")
    (hu : u ∈ db.users) (hmail : u.email = pyLower (pyStrip email)) :
    register secret db name email password now nowStr = (db, .conflict) := by
  unfold register
  rw [if_neg (by push_neg; exact ⟨hn, he, hp⟩)]
  rw [if_pos]
  rw [List.any_eq_true]
  exact ⟨u, hu, by simp [hmail]⟩

/-- C5 witness: `A@b.Com ` collides with the stored `a@b.com`; the store
is returned untouched. -/
theorem register_duplicate_email_conflict_witness :
    register "s" ⟨[], [⟨1, "n", "a@b.com", "pbkdf2:pw", false, "t"⟩], 1, 2⟩
        "m" "A@b.Com " "pw2" 0 "t2" =
      (⟨[], [⟨1, "n", "a@b.com", "pbkdf2:pw", false, "t"⟩], 1, 2⟩, .conflict) :=
  register_duplicate_email_conflict "s" _ "m" "A@b.Com " "pw2" 0 "t2"
    ⟨1, "n", "a@b.com", "pbkdf2:pw", false, "t"⟩
    (by decide) (by decide) (by decide) (by decide) (by decide)

/-! ## Amount coercion on insert -/

/-- C6 counterexample: with valid `date` and `type` but an unparsable
`amount`, the insert does not succeed — `float()` raises before anything
is stored, so the result is a server error, not an `ok` with amount 0. -/
theorem add_transaction_unparsable_cex :
    (add_transaction ⟨[], [], 1, 1⟩
        ⟨some "2024-01-01", some "venta", none, .unparsable, none, none⟩).2 ≠
      AddTxResult.ok ∧
    (add_transaction ⟨[], [], 1, 1⟩
        ⟨some "2024-01-01", some "venta", none, .unparsable, none, none⟩).1.txs = [] := by
  constructor
  · decide
  · rfl

/-- C6 amended: an absent `amount` is coerced to 0 and the insert
succeeds storing 0; an unparsable `amount` raises an uncaught error — the
request fails with a server error and no row is inserted. -/
theorem add_transaction_amount_amended (db : DB) (req : TxRequest)
    (hd : req.date.getD "" ≠ "") (ht : req.typ.getD "" ≠ "") :
    (req.amount = .absent →
      (add_transaction db req).2 = .ok ∧
      (add_transaction db req).1.txs =
        db.txs ++ [⟨db.nextTxId, req.date.getD "", req.typ.getD "",
          req.category.getD "General", 0, req.client.getD "", req.note.getD ""⟩]) ∧
    (req.amount = .unparsable → add_transaction db req = (db, .serverError)) := by
  constructor
  · intro ha
    simp [add_transaction, ha, pyFloatAmount, hd, ht]
  · intro ha
    simp [add_transaction, ha, pyFloatAmount]

/-- C6 amended witness: a concrete insert with the `amount` key absent
succeeds and stores amount 0. -/
theorem add_transaction_amount_amended_witness :
    (add_transaction ⟨[], [], 1, 1⟩
        ⟨some "2024-01-01", some "venta", none, .absent, none, none⟩).2 =
      AddTxResult.ok ∧
    (add_transaction ⟨[], [], 1, 1⟩
        ⟨some "2024-01-01", some "venta", none, .absent, none, none⟩).1.txs =
      [⟨1, "2024-01-01", "venta", "General", 0, "", ""⟩] :=
  ⟨((add_transaction_amount_amended ⟨[], [], 1, 1⟩
      ⟨some "2024-01-01", some "venta", none, .absent, none, none⟩
      (by decide) (by decide)).1 rfl).1,
   ((add_transaction_amount_amended ⟨[], [], 1, 1⟩
      ⟨some "2024-01-01", some "venta", none, .absent, none, none⟩
      (by decide) (by decide)).1 rfl).2⟩

/-! ## Confirmation idempotence -/

/-- Setting the `confirmed` flag of an already-confirmed user changes
nothing. -/
theorem user_set_confirmed_eq (u : User) (h : u.confirmed = true) :
    { u with confirmed := true } = u := by
  cases u
  simp_all

/-- Running `find?` by email still locates the account after the
`UPDATE … SET confirmed=1` of that account, now with the flag set. -/
theorem find?_markConfirmed (users : List User) (e : String) (u : User)
    (h : users.find? (fun x => x.email == e) = some u) :
    (markConfirmed users u.id).find? (fun x => x.email == e) =
      some { u with confirmed := true } := by
  induction users with
  | nil => simp at h
  | cons a as ih =>
    simp only [markConfirmed, List.map_cons] at ih ⊢
    by_cases ha : (a.email == e) = true
    · rw [@List.find?_cons_of_pos _ (fun x => x.email == e) a as ha] at h
      injection h with h
      subst h
      have hhead : (if a.id = a.id then ({ a with confirmed := true } : User) else a)
          = { a with confirmed := true } := if_pos rfl
      rw [hhead]
      exact @List.find?_cons_of_pos User (fun x => x.email == e) { a with confirmed := true }
        (as.map (fun x => if x.id = a.id then { x with confirmed := true } else x)) ha
    · rw [@List.find?_cons_of_neg _ (fun x => x.email == e) a as ha] at h
      rw [@List.find?_cons_of_neg User (fun x => x.email == e)
            (if a.id = u.id then { a with confirmed := true } else a)
            (as.map (fun x => if x.id = u.id then { x with confirmed := true } else x))
            (by split <;> exact ha)]
      exact ih h

/-- C3: with a valid (in-age, correctly tagged) confirmation token for an
account's email, two successive `confirm` calls are non-error, the second
reports `alreadyConfirmed`, and after either call the account is found
with its `confirmed` flag true. -/
theorem confirm_twice_idempotent (secret : String) (db : DB) (u : User) (t n1 n2 : Nat)
    (hfind : db.users.find? (fun x => x.email == u.email) = some u)
    (hlow : pyLower u.email = u.email)
    (h1 : n1 ≤ t + CONFIRM_MAX_AGE) (h2 : n2 ≤ t + CONFIRM_MAX_AGE) :
    ((confirm secret db (sign secret ⟨u.email, none⟩ t) n1).2 =
        ConfirmResult.newlyConfirmed ∨
     (confirm secret db (sign secret ⟨u.email, none⟩ t) n1).2 =
        ConfirmResult.alreadyConfirmed) ∧
    (confirm secret (confirm secret db (sign secret ⟨u.email, none⟩ t) n1).1
        (sign secret ⟨u.email, none⟩ t) n2).2 = ConfirmResult.alreadyConfirmed ∧
    (confirm secret db (sign secret ⟨u.email, none⟩ t) n1).1.users.find?
        (fun x => x.email == u.email) = some { u with confirmed := true } ∧
    (confirm secret (confirm secret db (sign secret ⟨u.email, none⟩ t) n1).1
        (sign secret ⟨u.email, none⟩ t) n2).1.users.find?
        (fun x => x.email == u.email) = some { u with confirmed := true } := by
  have hv : ∀ n, n ≤ t + CONFIRM_MAX_AGE →
      verify secret (sign secret ⟨u.email, none⟩ t) CONFIRM_MAX_AGE n =
        .ok ⟨u.email, none⟩ := by
    intro n hn
    simp only [verify, sign]
    rw [if_neg (by simp), if_neg (by simp only [CONFIRM_MAX_AGE] at hn ⊢; omega)]
  have key : ∀ n, n ≤ t + CONFIRM_MAX_AGE → ∀ (d : DB) (w : User),
      d.users.find? (fun x => x.email == u.email) = some w →
      confirm secret d (sign secret ⟨u.email, none⟩ t) n =
        (if w.confirmed then (d, .alreadyConfirmed)
         else ({ d with users := markConfirmed d.users w.id }, .newlyConfirmed)) := by
    intro n hn d w hw
    simp only [confirm, hv n hn]
    rw [hlow, hw]
  by_cases hcb : u.confirmed = true
  · have hw1 := key n1 h1 db u hfind
    rw [if_pos hcb] at hw1
    have hw2 := key n2 h2 db u hfind
    rw [if_pos hcb] at hw2
    have hu_eq : ({ u with confirmed := true } : User) = u := user_set_confirmed_eq u hcb
    refine ⟨Or.inr ?_, ?_, ?_, ?_⟩
    · rw [hw1]
    · rw [hw1]
      exact congrArg Prod.snd hw2
    · rw [hw1, hu_eq]
      exact hfind
    · rw [hw1, hw2, hu_eq]
      exact hfind
  · have hw1 := key n1 h1 db u hfind
    rw [if_neg hcb] at hw1
    have hfind1 : (markConfirmed db.users u.id).find? (fun x => x.email == u.email) =
        some { u with confirmed := true } := find?_markConfirmed db.users u.email u hfind
    have hw2 := key n2 h2 { db with users := markConfirmed db.users u.id }
        { u with confirmed := true } hfind1
    rw [if_pos rfl] at hw2
    refine ⟨Or.inl ?_, ?_, ?_, ?_⟩
    · rw [hw1]
    · rw [hw1]
      exact congrArg Prod.snd hw2
    · rw [hw1]
      exact hfind1
    · rw [hw1, hw2]
      exact hfind1

/-- C3 witness: a concrete unconfirmed account confirmed twice with the
same valid token — the second call reports `alreadyConfirmed`. -/
theorem confirm_twice_idempotent_witness :
    ((confirm "s" ⟨[], [⟨1, "n", "a@b.com", "pbkdf2:pw", false, "t0"⟩], 1, 2⟩
        (sign "s" ⟨"a@b.com", none⟩ 0) 10).2 = ConfirmResult.newlyConfirmed ∨
     (confirm "s" ⟨[], [⟨1, "n", "a@b.com", "pbkdf2:pw", false, "t0"⟩], 1, 2⟩
        (sign "s" ⟨"a@b.com", none⟩ 0) 10).2 = ConfirmResult.alreadyConfirmed) ∧
    (confirm "s"
        (confirm "s" ⟨[], [⟨1, "n", "a@b.com", "pbkdf2:pw", false, "t0"⟩], 1, 2⟩
          (sign "s" ⟨"a@b.com", none⟩ 0) 10).1
        (sign "s" ⟨"a@b.com", none⟩ 0) 20).2 = ConfirmResult.alreadyConfirmed ∧
    (confirm "s" ⟨[], [⟨1, "n", "a@b.com", "pbkdf2:pw", false, "t0"⟩], 1, 2⟩
        (sign "s" ⟨"a@b.com", none⟩ 0) 10).1.users.find?
        (fun x => x.email == (⟨1, "n", "a@b.com", "pbkdf2:pw", false, "t0"⟩ : User).email) =
      some ⟨1, "n", "a@b.com", "pbkdf2:pw", true, "t0"⟩ ∧
    (confirm "s"
        (confirm "s" ⟨[], [⟨1, "n", "a@b.com", "pbkdf2:pw", false, "t0"⟩], 1, 2⟩
          (sign "s" ⟨"a@b.com", none⟩ 0) 10).1
        (sign "s" ⟨"a@b.com", none⟩ 0) 20).1.users.find?
        (fun x => x.email == (⟨1, "n", "a@b.com", "pbkdf2:pw", false, "t0"⟩ : User).email) =
      some ⟨1, "n", "a@b.com", "pbkdf2:pw", true, "t0"⟩ :=
  confirm_twice_idempotent "s" ⟨[], [⟨1, "n", "a@b.com", "pbkdf2:pw", false, "t0"⟩], 1, 2⟩
    ⟨1, "n", "a@b.com", "pbkdf2:pw", false, "t0"⟩ 0 10 20
    (by decide) (by decide) (by decide) (by decide)

/-! ## Whole-system invariant: accounts persist, `confirmed` is monotone -/

/-- C9: every operation of the core keeps every existing account (same id
and email still present) and never lowers a true `confirmed` flag. -/
theorem confirmed_monotone_no_delete (secret : String) (db : DB) (op : Op) (u : User)
    (hu : u ∈ db.users) :
    ∃ u' ∈ (applyOp secret db op).users,
      u'.id = u.id ∧ u'.email = u.email ∧ (u.confirmed = true → u'.confirmed = true) := by
  cases op with
  | registerOp n e p now ns =>
    refine ⟨u, ?_, rfl, rfl, fun h => h⟩
    simp only [applyOp, register]
    split
    · exact hu
    · split
      · exact hu
      · exact List.mem_append_left _ hu
  | confirmOp tok now =>
    simp only [applyOp, confirm]
    cases verify secret tok CONFIRM_MAX_AGE now with
    | invalid => exact ⟨u, hu, rfl, rfl, fun h => h⟩
    | expired => exact ⟨u, hu, rfl, rfl, fun h => h⟩
    | ok c =>
      cases hf : db.users.find? (fun x => x.email == pyLower c.email) with
      | none =>
        simp only [hf]
        exact ⟨u, hu, rfl, rfl, fun h => h⟩
      | some w =>
        by_cases hw : w.confirmed = true
        · simp only [hf, hw, if_true]
          exact ⟨u, hu, rfl, rfl, fun h => h⟩
        · simp only [hf, if_neg hw, markConfirmed]
          refine ⟨if u.id = w.id then { u with confirmed := true } else u,
            List.mem_map_of_mem _ hu, ?_, ?_, ?_⟩
          · split <;> rfl
          · split <;> rfl
          · intro h
            split
            · rfl
            · exact h
  | loginOp e p now => exact ⟨u, hu, rfl, rfl, fun h => h⟩
  | addTxOp req =>
    simp only [applyOp, add_transaction]
    cases pyFloatAmount req.amount with
    | none => exact ⟨u, hu, rfl, rfl, fun h => h⟩
    | some amt =>
      by_cases hv : req.date.getD "" = "" ∨ req.typ.getD "" = ""
      · simp only [if_pos hv]
        exact ⟨u, hu, rfl, rfl, fun h => h⟩
      · simp only [if_neg hv]
        exact ⟨u, hu, rfl, rfl, fun h => h⟩
  | getTxOp d => exact ⟨u, hu, rfl, rfl, fun h => h⟩
  | summaryOp d => exact ⟨u, hu, rfl, rfl, fun h => h⟩
  | estadoOp s e => exact ⟨u, hu, rfl, rfl, fun h => h⟩

/-- C9 witness: a confirmed account survives a register operation with its
flag intact. -/
theorem confirmed_monotone_no_delete_witness :
    ∃ u' ∈ (applyOp "s" ⟨[], [⟨1, "n", "a@b.com", "pbkdf2:pw", true, "t"⟩], 1, 2⟩
        (Op.registerOp "m" "c@d.com" "pw2" 0 "t2")).users,
      u'.id = (⟨1, "n", "a@b.com", "pbkdf2:pw", true, "t"⟩ : User).id ∧
      u'.email = (⟨1, "n", "a@b.com", "pbkdf2:pw", true, "t"⟩ : User).email ∧
      ((⟨1, "n", "a@b.com", "pbkdf2:pw", true, "t"⟩ : User).confirmed = true →
        u'.confirmed = true) :=
  confirmed_monotone_no_delete "s" ⟨[], [⟨1, "n", "a@b.com", "pbkdf2:pw", true, "t"⟩], 1, 2⟩
    (Op.registerOp "m" "c@d.com" "pw2" 0 "t2")
    ⟨1, "n", "a@b.com", "pbkdf2:pw", true, "t"⟩ (by decide)

/-! ## Whitespace stripping on register and login -/

/-- C10: whitespace-only email/password (and name, for register) are
rejected as validation failures, and `login` succeeds with any password
whose stripped form equals the stripped registered password — the stored
digest is of the stripped plaintext, and the candidate is stripped before
verification. -/
theorem whitespace_strip_spec (secret : String) (db : DB) (now : Nat) (nowStr : String)
    (name email password q : String) (u : User) :
    (pyStrip email = "" ∨ pyStrip password = "" →
      login secret db email password now = .err 400 "email y password son requeridos") ∧
    (pyStrip name = "" ∨ pyStrip email = "" ∨ pyStrip password = "" →
      register secret db name email password now nowStr = (db, .validationError)) ∧
    (db.users.find? (fun x => x.email == pyLower (pyStrip email)) = some u →
      u.passwordHash = generate_password_hash (pyStrip password) →
      pyStrip q = pyStrip password →
      u.confirmed = true →
      pyLower (pyStrip email) ≠ "" → pyStrip password ≠ "" →
      login secret db email q now =
        .ok u.name (pyLower (pyStrip email))
          (sign secret ⟨pyLower (pyStrip email), some u.id⟩ now)) := by
  refine ⟨?_, ?_, ?_⟩
  · rintro (h | h)
    · simp only [login]
      rw [if_pos (Or.inl (by rw [h]; rfl))]
    · simp only [login]
      rw [if_pos (Or.inr h)]
  · rintro (h | h | h)
    · simp only [register]
      rw [if_pos (Or.inl h)]
    · simp only [register]
      rw [if_pos (Or.inr (Or.inl (by rw [h]; rfl)))]
    · simp only [register]
      rw [if_pos (Or.inr (Or.inr h))]
  · intro hf hph hq hc hne hpe
    have hqe : pyStrip q ≠ "" := by rw [hq]; exact hpe
    have hcheck : check_password_hash u.passwordHash (pyStrip q) = true := by
      rw [hq, hph]
      simp [check_password_hash]
    simp only [login]
    rw [if_neg (by push_neg; exact ⟨hne, hqe⟩), hf]
    simp [hcheck, hc]

/-- C10 witness: registered password `pw`, login with ` pw ` and email
` A@b.Com ` succeeds on the stored `a@b.com` account. -/
theorem whitespace_strip_spec_witness :
    login "s" ⟨[], [⟨1, "n", "a@b.com", "pbkdf2:pw", true, "t"⟩], 1, 2⟩
        " A@b.Com " " pw " 0 =
      .ok "n" "a@b.com" (sign "s" ⟨"a@b.com", some 1⟩ 0) :=
  (whitespace_strip_spec "s" ⟨[], [⟨1, "n", "a@b.com", "pbkdf2:pw", true, "t"⟩], 1, 2⟩
      0 "t2" "x" " A@b.Com " "pw" " pw "
      ⟨1, "n", "a@b.com", "pbkdf2:pw", true, "t"⟩).2.2
    (by decide) (by decide) (by decide) (by decide) (by decide) (by decide)
